import Mathlib

/-!
Verification of the `FVolumeInfo` data model of the TBRaymarcherPlugin
repository (Source/VolumeTextureToolkit/Public/VolumeAsset/VolumeInfo.h).

Machine types are embedded over Nat / Int / Rat: `int32` and `int64` values
are Int with explicit range predicates and wrapping where overflow matters,
and the `float` fields are embedded as rationals (the exact real arithmetic
the spec describes). Fields that the C++ struct leaves without a default
initializer are embedded as `Option` fields defaulting to `none`.
-/

namespace TBRaymarcher

/-- Voxel format of a loaded volume (VolumeInfo.h, lines 13 to 27): the
seven variants UnsignedChar, SignedChar, UnsignedShort, SignedShort,
UnsignedInt, SignedInt, Float. -/
inductive EVolumeVoxelFormat where
  | UnsignedChar
  | SignedChar
  | UnsignedShort
  | SignedShort
  | UnsignedInt
  | SignedInt
  | Float
deriving DecidableEq

/-- FIntVector: a triple of `int32` components, embedded as integers. -/
structure FIntVector where
  X : Int
  Y : Int
  Z : Int
deriving DecidableEq

/-- FVector: a triple of floating point components, embedded as rationals. -/
structure FVector where
  X : ℚ
  Y : ℚ
  Z : ℚ
deriving DecidableEq

/-- FLinearColor: four floating point channels, embedded as rationals. -/
structure FLinearColor where
  R : ℚ
  G : ℚ
  B : ℚ
  A : ℚ
deriving DecidableEq

/-- Implicit bool-to-float conversion used by the FLinearColor constructor
call in `FWindowingParameters::ToLinearColor` (VolumeInfo.h, line 51). -/
def boolToFloat (b : Bool) : ℚ :=
  if b then 1 else 0

/-- FWindowingParameters (VolumeInfo.h, lines 32 to 53), with the in-class
default initializers Center = 0.5, Width = 1.0, LowCutoff = true,
HighCutoff = true. -/
structure FWindowingParameters where
  Center : ℚ := 1/2
  Width : ℚ := 1
  LowCutoff : Bool := true
  HighCutoff : Bool := true
deriving DecidableEq

/-- `FWindowingParameters::ToLinearColor` (VolumeInfo.h, lines 49 to 52):
returns FLinearColor(Center, Width, LowCutoff, HighCutoff), the two bools
passing through the implicit bool-to-float conversion. -/
def FWindowingParameters.ToLinearColor (w : FWindowingParameters) : FLinearColor :=
  ⟨w.Center, w.Width, boolToFloat w.LowCutoff, boolToFloat w.HighCutoff⟩

/-- FVolumeInfo (VolumeInfo.h, lines 57 to 142). Every field carries the
in-class default initializer of the source, except `bIsSigned` (line 117)
and `BytesPerVoxel` (line 120), which have no initializer in the source and
are therefore embedded as `Option` fields whose default is `none`
(indeterminate until a loader assigns them). `CompressedByteSize` is
declared `int32` in the source (line 107). -/
structure FVolumeInfo where
  bParseWasSuccessful : Bool := false
  DataFileName : String := ""
  OriginalFormat : EVolumeVoxelFormat := .UnsignedChar
  ActualFormat : EVolumeVoxelFormat := .UnsignedChar
  Dimensions : FIntVector := ⟨0, 0, 0⟩
  Spacing : FVector := ⟨0, 0, 0⟩
  WorldDimensions : FVector := ⟨0, 0, 0⟩
  DefaultWindowingParameters : FWindowingParameters := {}
  bIsNormalized : Bool := false
  MinValue : ℚ := -1000
  MaxValue : ℚ := 3000
  bIsCompressed : Bool := false
  CompressedByteSize : Int := 0
  bIsSigned : Option Bool := none
  BytesPerVoxel : Option Nat := none
deriving DecidableEq

/-- Values representable by the `int32` C++ type of the field
`FVolumeInfo::CompressedByteSize` (VolumeInfo.h, line 107). -/
def CompressedByteSizeRepresentable (v : Int) : Prop :=
  -(2 ^ 31) ≤ v ∧ v < 2 ^ 31

instance (v : Int) : Decidable (CompressedByteSizeRepresentable v) :=
  inferInstanceAs (Decidable (And _ _))

/-- Two's-complement wrap of an integer into the `int64` range, making
64-bit arithmetic explicit in the embedding. -/
def int64Wrap (v : Int) : Int :=
  (v + 2 ^ 63) % 2 ^ 64 - 2 ^ 63

/-- Modelled from the spec: the body of the static
`FVolumeInfo::VoxelFormatByteSize` (declared at VolumeInfo.h line 135) is
in a .cpp file absent from the sources; the spec fixes the table
{1,1,2,2,4,4,4} over the seven variants. -/
def FVolumeInfo.VoxelFormatByteSize : EVolumeVoxelFormat → Int
  | .UnsignedChar => 1
  | .SignedChar => 1
  | .UnsignedShort => 2
  | .SignedShort => 2
  | .UnsignedInt => 4
  | .SignedInt => 4
  | .Float => 4

/-- Modelled from the spec: the body of the static
`FVolumeInfo::IsVoxelFormatSigned` (declared at VolumeInfo.h line 137) is
in a .cpp file absent from the sources; the spec fixes the table
{false,true,false,true,false,true,true}, float counting as signed. -/
def FVolumeInfo.IsVoxelFormatSigned : EVolumeVoxelFormat → Bool
  | .UnsignedChar => false
  | .SignedChar => true
  | .UnsignedShort => false
  | .SignedShort => true
  | .UnsignedInt => false
  | .SignedInt => true
  | .Float => true

/-- Modelled from the spec: the body of `FVolumeInfo::GetTotalVoxels`
(declared at VolumeInfo.h line 113) is in a .cpp file absent from the
sources; the spec states it returns Dimensions.X * Dimensions.Y *
Dimensions.Z computed in 64-bit arithmetic. -/
def FVolumeInfo.GetTotalVoxels (info : FVolumeInfo) : Int :=
  int64Wrap (info.Dimensions.X * info.Dimensions.Y * info.Dimensions.Z)

/-- Modelled from the spec: the body of `FVolumeInfo::GetByteSize`
(declared at VolumeInfo.h line 110) is in a .cpp file absent from the
sources; the spec states it returns GetTotalVoxels() times the byte width
of ActualFormat, in 64-bit arithmetic. -/
def FVolumeInfo.GetByteSize (info : FVolumeInfo) : Int :=
  int64Wrap (info.GetTotalVoxels * FVolumeInfo.VoxelFormatByteSize info.ActualFormat)

/-- Modelled from the spec: the body of `FVolumeInfo::NormalizeValue`
(declared at VolumeInfo.h line 124) is in a .cpp file absent from the
sources; the spec states it returns (v - MinValue) / (MaxValue - MinValue),
unclamped, returning the sentinel 0 when the range is 0 (which rational
division by zero yields directly). -/
def FVolumeInfo.NormalizeValue (info : FVolumeInfo) (v : ℚ) : ℚ :=
  (v - info.MinValue) / (info.MaxValue - info.MinValue)

/-- Modelled from the spec: the body of `FVolumeInfo::DenormalizeValue`
(declared at VolumeInfo.h line 127) is in a .cpp file absent from the
sources; the spec states it returns MinValue + n * (MaxValue - MinValue). -/
def FVolumeInfo.DenormalizeValue (info : FVolumeInfo) (n : ℚ) : ℚ :=
  info.MinValue + n * (info.MaxValue - info.MinValue)

/-- Modelled from the spec: the body of `FVolumeInfo::NormalizeRange`
(declared at VolumeInfo.h line 130) is in a .cpp file absent from the
sources; the spec states it returns r / (MaxValue - MinValue), returning
the sentinel 0 when the range is 0. -/
def FVolumeInfo.NormalizeRange (info : FVolumeInfo) (r : ℚ) : ℚ :=
  r / (info.MaxValue - info.MinValue)

/-- Modelled from the spec: the body of `FVolumeInfo::DenormalizeRange`
(declared at VolumeInfo.h line 133) is in a .cpp file absent from the
sources; the spec states it returns r * (MaxValue - MinValue). -/
def FVolumeInfo.DenormalizeRange (info : FVolumeInfo) (r : ℚ) : ℚ :=
  r * (info.MaxValue - info.MinValue)

/-- Component-wise product of integer dimensions and rational spacing,
as in the comment at VolumeInfo.h line 85: WorldDimensions equals
Dimensions * Spacing. -/
def componentMul (d : FIntVector) (s : FVector) : FVector :=
  ⟨(d.X : ℚ) * s.X, (d.Y : ℚ) * s.Y, (d.Z : ℚ) * s.Z⟩

/-- The invariant stated at VolumeInfo.h line 85: the WorldDimensions field
equals Dimensions * Spacing component-wise. -/
def FVolumeInfo.WorldDimensionsInvariant (info : FVolumeInfo) : Prop :=
  info.WorldDimensions = componentMul info.Dimensions info.Spacing

/-- Modelled from the spec: the loader code that mutates Dimensions is
absent from the sources; the spec states WorldDimensions is recomputed
whenever Dimensions change and is never set independently. -/
def FVolumeInfo.SetDimensions (info : FVolumeInfo) (d : FIntVector) : FVolumeInfo :=
  { info with Dimensions := d, WorldDimensions := componentMul d info.Spacing }

/-- Modelled from the spec: the loader code that mutates Spacing is absent
from the sources; the spec states WorldDimensions is recomputed whenever
Spacing changes and is never set independently. -/
def FVolumeInfo.SetSpacing (info : FVolumeInfo) (s : FVector) : FVolumeInfo :=
  { info with Spacing := s, WorldDimensions := componentMul info.Dimensions s }

/-- States of an FVolumeInfo reachable from default construction through
the geometry mutations the spec allows: setting Dimensions or Spacing
(each of which recomputes WorldDimensions, never setting it on its own). -/
inductive FVolumeInfo.Reachable : FVolumeInfo → Prop
  | default : Reachable {}
  | setDimensions {i : FVolumeInfo} (d : FIntVector) :
      Reachable i → Reachable (i.SetDimensions d)
  | setSpacing {i : FVolumeInfo} (s : FVector) :
      Reachable i → Reachable (i.SetSpacing s)

/-- Auxiliary: `int64Wrap` is the identity on values already inside the
`int64` range. -/
theorem int64Wrap_eq_self {v : Int} (h1 : -(2 ^ 63) ≤ v) (h2 : v < 2 ^ 63) :
    int64Wrap v = v := by
  unfold int64Wrap
  have h0 : (0 : Int) ≤ v + 2 ^ 63 := by linarith
  have hlt : v + 2 ^ 63 < 2 ^ 64 := by
    have : (2 : Int) ^ 64 = 2 ^ 63 + 2 ^ 63 := by norm_num
    linarith
  rw [Int.emod_eq_of_lt h0 hlt]
  ring

/-- Claim C1: over the seven voxel format variants, VoxelFormatByteSize
returns 1,1,2,2,4,4,4 and IsVoxelFormatSigned returns
false,true,false,true,false,true,true respectively; both functions are
total over the enumeration, so no variant is unmapped. -/
theorem claim_C1_voxel_format_tables :
    FVolumeInfo.VoxelFormatByteSize .UnsignedChar = 1 ∧
    FVolumeInfo.VoxelFormatByteSize .SignedChar = 1 ∧
    FVolumeInfo.VoxelFormatByteSize .UnsignedShort = 2 ∧
    FVolumeInfo.VoxelFormatByteSize .SignedShort = 2 ∧
    FVolumeInfo.VoxelFormatByteSize .UnsignedInt = 4 ∧
    FVolumeInfo.VoxelFormatByteSize .SignedInt = 4 ∧
    FVolumeInfo.VoxelFormatByteSize .Float = 4 ∧
    FVolumeInfo.IsVoxelFormatSigned .UnsignedChar = false ∧
    FVolumeInfo.IsVoxelFormatSigned .SignedChar = true ∧
    FVolumeInfo.IsVoxelFormatSigned .UnsignedShort = false ∧
    FVolumeInfo.IsVoxelFormatSigned .SignedShort = true ∧
    FVolumeInfo.IsVoxelFormatSigned .UnsignedInt = false ∧
    FVolumeInfo.IsVoxelFormatSigned .SignedInt = true ∧
    FVolumeInfo.IsVoxelFormatSigned .Float = true := by
  decide

/-- Claim C2: GetByteSize equals GetTotalVoxels times the byte width of
ActualFormat, in 64-bit arithmetic: whenever that product lies in the
int64 range, GetByteSize returns it exactly. -/
theorem claim_C2_byte_size (info : FVolumeInfo)
    (h1 : -(2 ^ 63) ≤ info.GetTotalVoxels *
      FVolumeInfo.VoxelFormatByteSize info.ActualFormat)
    (h2 : info.GetTotalVoxels *
      FVolumeInfo.VoxelFormatByteSize info.ActualFormat < 2 ^ 63) :
    info.GetByteSize = info.GetTotalVoxels *
      FVolumeInfo.VoxelFormatByteSize info.ActualFormat :=
  int64Wrap_eq_self h1 h2

/-- Witness for C2: with Dimensions (256,256,128) and ActualFormat Float,
GetByteSize returns 33554432; the default OriginalFormat of this record is
UnsignedChar, and the result differs from what UnsignedChar byte width
would give, so the width used is that of ActualFormat. -/
theorem claim_C2_byte_size_witness :
    ({ Dimensions := ⟨256, 256, 128⟩,
       ActualFormat := .Float } : FVolumeInfo).GetByteSize = 33554432 ∧
    ({ Dimensions := ⟨256, 256, 128⟩,
       ActualFormat := .Float } : FVolumeInfo).GetByteSize ≠
      ({ Dimensions := ⟨256, 256, 128⟩,
         ActualFormat := .Float } : FVolumeInfo).GetTotalVoxels *
        FVolumeInfo.VoxelFormatByteSize
          ({ Dimensions := ⟨256, 256, 128⟩,
             ActualFormat := .Float } : FVolumeInfo).OriginalFormat := by
  have h := claim_C2_byte_size
    { Dimensions := ⟨256, 256, 128⟩, ActualFormat := .Float }
    (by decide) (by decide)
  refine ⟨?_, ?_⟩
  · rw [h]; decide
  · rw [h]; decide

/-- Claim C3: GetTotalVoxels equals Dimensions.X * Dimensions.Y *
Dimensions.Z exactly (no 64-bit overflow) whenever every component lies
in [0, 2^11], even though the product can exceed 2^31. -/
theorem claim_C3_total_voxels (info : FVolumeInfo)
    (hx0 : 0 ≤ info.Dimensions.X) (hx1 : info.Dimensions.X ≤ 2 ^ 11)
    (hy0 : 0 ≤ info.Dimensions.Y) (hy1 : info.Dimensions.Y ≤ 2 ^ 11)
    (hz0 : 0 ≤ info.Dimensions.Z) (hz1 : info.Dimensions.Z ≤ 2 ^ 11) :
    info.GetTotalVoxels =
      info.Dimensions.X * info.Dimensions.Y * info.Dimensions.Z := by
  have hxy : info.Dimensions.X * info.Dimensions.Y ≤ 2 ^ 22 := by
    calc info.Dimensions.X * info.Dimensions.Y
        ≤ 2 ^ 11 * 2 ^ 11 := mul_le_mul hx1 hy1 hy0 (by norm_num)
      _ = 2 ^ 22 := by norm_num
  have hxy0 : 0 ≤ info.Dimensions.X * info.Dimensions.Y := mul_nonneg hx0 hy0
  have hxyz : info.Dimensions.X * info.Dimensions.Y * info.Dimensions.Z ≤ 2 ^ 33 := by
    calc info.Dimensions.X * info.Dimensions.Y * info.Dimensions.Z
        ≤ 2 ^ 22 * 2 ^ 11 := mul_le_mul hxy hz1 hz0 (by norm_num)
      _ = 2 ^ 33 := by norm_num
  have hxyz0 : 0 ≤ info.Dimensions.X * info.Dimensions.Y * info.Dimensions.Z :=
    mul_nonneg hxy0 hz0
  have hbig : (2 : Int) ^ 33 < 2 ^ 63 := by norm_num
  exact int64Wrap_eq_self (by linarith) (by linarith)

/-- Witness for C3: with every dimension equal to 2^11, GetTotalVoxels
returns the exact product 2^33 = 8589934592, which exceeds 2^31. -/
theorem claim_C3_total_voxels_witness :
    ({ Dimensions := ⟨2048, 2048, 2048⟩ } : FVolumeInfo).GetTotalVoxels =
      8589934592 ∧ (2 ^ 31 : Int) < 8589934592 := by
  have h := claim_C3_total_voxels ({ Dimensions := ⟨2048, 2048, 2048⟩ })
    (by decide) (by decide) (by decide) (by decide) (by decide) (by decide)
  refine ⟨?_, by decide⟩
  rw [h]; decide

/-- Claim C4: when MinValue and MaxValue differ, DenormalizeValue is the
exact inverse of NormalizeValue for every input (also outside [0,1]), and
DenormalizeRange is the exact inverse of NormalizeRange; exact equality in
the rational model implies equality within any floating point tolerance. -/
theorem claim_C4_roundtrip (info : FVolumeInfo) (v r : ℚ)
    (h : info.MinValue ≠ info.MaxValue) :
    info.DenormalizeValue (info.NormalizeValue v) = v ∧
    info.DenormalizeRange (info.NormalizeRange r) = r := by
  have hne : info.MaxValue - info.MinValue ≠ 0 := sub_ne_zero_of_ne (Ne.symm h)
  constructor
  · unfold FVolumeInfo.DenormalizeValue FVolumeInfo.NormalizeValue
    field_simp
  · unfold FVolumeInfo.DenormalizeRange FVolumeInfo.NormalizeRange
    field_simp

/-- Witness for C4: with MinValue = 0, MaxValue = 100, the value 150 and
the range 40 both survive the round trip exactly. -/
theorem claim_C4_roundtrip_witness :
    ({ MinValue := 0, MaxValue := 100 } : FVolumeInfo).DenormalizeValue
      (({ MinValue := 0, MaxValue := 100 } : FVolumeInfo).NormalizeValue 150) = 150 ∧
    ({ MinValue := 0, MaxValue := 100 } : FVolumeInfo).DenormalizeRange
      (({ MinValue := 0, MaxValue := 100 } : FVolumeInfo).NormalizeRange 40) = 40 :=
  claim_C4_roundtrip { MinValue := 0, MaxValue := 100 } 150 40 (by norm_num)

/-- Counterexample for C5: the claim quantifies over every MinValue and
MaxValue, but with MinValue = 100 and MaxValue = 0 the input 50 lies below
MinValue while NormalizeValue returns 1/2, which is not negative. -/
theorem claim_C5_counterexample :
    (50 : ℚ) < ({ MinValue := 100, MaxValue := 0 } : FVolumeInfo).MinValue ∧
    ¬ ({ MinValue := 100, MaxValue := 0 } : FVolumeInfo).NormalizeValue 50 < 0 := by
  constructor
  · norm_num
  · unfold FVolumeInfo.NormalizeValue
    norm_num

/-- Amended claim C5: NormalizeValue equals
(v - MinValue) / (MaxValue - MinValue) and, provided MinValue < MaxValue,
never clamps: inputs below MinValue give a negative result and inputs
above MaxValue give a result greater than 1. -/
theorem claim_C5_normalize_unclamped (info : FVolumeInfo) (v : ℚ)
    (h : info.MinValue < info.MaxValue) :
    info.NormalizeValue v =
      (v - info.MinValue) / (info.MaxValue - info.MinValue) ∧
    (v < info.MinValue → info.NormalizeValue v < 0) ∧
    (info.MaxValue < v → 1 < info.NormalizeValue v) := by
  have hpos : 0 < info.MaxValue - info.MinValue := sub_pos.mpr h
  refine ⟨rfl, ?_, ?_⟩
  · intro hv
    unfold FVolumeInfo.NormalizeValue
    exact div_neg_of_neg_of_pos (by linarith) hpos
  · intro hv
    unfold FVolumeInfo.NormalizeValue
    rw [one_lt_div hpos]
    linarith

/-- Witness for amended C5: with MinValue = 0 and MaxValue = 100,
NormalizeValue maps -50 to -1/2 (negative) and 150 to 3/2 (above 1). -/
theorem claim_C5_normalize_unclamped_witness :
    ({ MinValue := 0, MaxValue := 100 } : FVolumeInfo).NormalizeValue (-50) = -(1/2) ∧
    ({ MinValue := 0, MaxValue := 100 } : FVolumeInfo).NormalizeValue 150 = 3/2 ∧
    ({ MinValue := 0, MaxValue := 100 } : FVolumeInfo).NormalizeValue (-50) < 0 ∧
    1 < ({ MinValue := 0, MaxValue := 100 } : FVolumeInfo).NormalizeValue 150 := by
  have h1 := claim_C5_normalize_unclamped { MinValue := 0, MaxValue := 100 }
    (-50) (by norm_num)
  have h2 := claim_C5_normalize_unclamped { MinValue := 0, MaxValue := 100 }
    150 (by norm_num)
  exact ⟨h1.1.trans (by norm_num), h2.1.trans (by norm_num),
    h1.2.1 (by norm_num), h2.2.2 (by norm_num)⟩

/-- Claim C6: when MinValue = MaxValue, NormalizeValue and NormalizeRange
return the sentinel 0, DenormalizeValue returns MinValue, and
DenormalizeRange returns 0, for every input — a deterministic policy with
no division-by-zero NaN or infinity (the rational model is total). -/
theorem claim_C6_degenerate_range (info : FVolumeInfo) (v r : ℚ)
    (h : info.MinValue = info.MaxValue) :
    info.NormalizeValue v = 0 ∧
    info.NormalizeRange r = 0 ∧
    info.DenormalizeValue v = info.MinValue ∧
    info.DenormalizeRange r = 0 := by
  have h0 : info.MaxValue - info.MinValue = 0 := sub_eq_zero.mpr h.symm
  refine ⟨?_, ?_, ?_, ?_⟩
  · unfold FVolumeInfo.NormalizeValue
    rw [h0, div_zero]
  · unfold FVolumeInfo.NormalizeRange
    rw [h0, div_zero]
  · unfold FVolumeInfo.DenormalizeValue
    rw [h0]
    ring
  · unfold FVolumeInfo.DenormalizeRange
    rw [h0]
    ring

/-- Witness for C6: with MinValue = MaxValue = 500, NormalizeValue 500 is
the sentinel 0, NormalizeRange 7 is 0, DenormalizeValue 500 is MinValue,
and DenormalizeRange 7 is 0. -/
theorem claim_C6_degenerate_range_witness :
    ({ MinValue := 500, MaxValue := 500 } : FVolumeInfo).NormalizeValue 500 = 0 ∧
    ({ MinValue := 500, MaxValue := 500 } : FVolumeInfo).NormalizeRange 7 = 0 ∧
    ({ MinValue := 500, MaxValue := 500 } : FVolumeInfo).DenormalizeValue 500 =
      ({ MinValue := 500, MaxValue := 500 } : FVolumeInfo).MinValue ∧
    ({ MinValue := 500, MaxValue := 500 } : FVolumeInfo).DenormalizeRange 7 = 0 :=
  claim_C6_degenerate_range { MinValue := 500, MaxValue := 500 } 500 7 rfl

/-- Counterexample for C7: the value 2^31 is a non-negative byte length
not exceeding 2^63 - 1, yet it is not representable by the
CompressedByteSize field, which the source declares as int32, not int64. -/
theorem claim_C7_counterexample :
    (0 : Int) ≤ 2 ^ 31 ∧ (2 ^ 31 : Int) ≤ 2 ^ 63 - 1 ∧
    ¬ CompressedByteSizeRepresentable (2 ^ 31) := by
  refine ⟨by norm_num, by norm_num, fun h => absurd h.2 (by norm_num)⟩

/-- Amended claim C7: CompressedByteSize is a 32-bit signed integer
(int32) with default value 0; it can represent every non-negative byte
length up to 2^31 - 1 (not up to 2^63 - 1). -/
theorem claim_C7_compressed_byte_size (v : Int) (h0 : 0 ≤ v)
    (h1 : v ≤ 2 ^ 31 - 1) :
    CompressedByteSizeRepresentable v ∧
    ({} : FVolumeInfo).CompressedByteSize = 0 := by
  have hneg : -(2 ^ 31 : Int) ≤ 0 := by norm_num
  exact ⟨⟨by linarith, by linarith⟩, rfl⟩

/-- Witness for amended C7: the byte length 12345 is representable. -/
theorem claim_C7_compressed_byte_size_witness :
    CompressedByteSizeRepresentable 12345 ∧
    ({} : FVolumeInfo).CompressedByteSize = 0 :=
  claim_C7_compressed_byte_size 12345 (by norm_num) (by norm_num)

/-- Claim C8: every FVolumeInfo reachable from default construction by
setting Dimensions or Spacing (the only mutations, each of which
recomputes WorldDimensions) satisfies WorldDimensions = Dimensions *
Spacing component-wise. -/
theorem claim_C8_world_dimensions (info : FVolumeInfo)
    (h : info.Reachable) : info.WorldDimensionsInvariant := by
  induction h with
  | default =>
    unfold FVolumeInfo.WorldDimensionsInvariant
    norm_num [componentMul]
  | setDimensions d hr ih => rfl
  | setSpacing s hr ih => rfl

/-- Witness for C8: the spec example — dimensions (256,256,128) and
spacing (1,1,2) — is reachable, satisfies the invariant, and its
WorldDimensions is (256,256,256), including a component where spacing is
not 1. -/
theorem claim_C8_world_dimensions_witness :
    ((({} : FVolumeInfo).SetDimensions ⟨256, 256, 128⟩).SetSpacing
      ⟨1, 1, 2⟩).WorldDimensionsInvariant ∧
    ((({} : FVolumeInfo).SetDimensions ⟨256, 256, 128⟩).SetSpacing
      ⟨1, 1, 2⟩).WorldDimensions = ⟨256, 256, 256⟩ :=
  ⟨claim_C8_world_dimensions _
    (.setSpacing _ (.setDimensions _ .default)),
    by norm_num [FVolumeInfo.SetDimensions, FVolumeInfo.SetSpacing, componentMul]⟩

/-- Claim C9: ToLinearColor packs exactly (Center, Width, LowCutoff as
1/0, HighCutoff as 1/0), in that order, into the four float channels, for
every parameter record; for the defaults (0.5, 1.0, true, true) it
returns (0.5, 1, 1, 1). -/
theorem claim_C9_to_linear_color :
    (∀ w : FWindowingParameters, w.ToLinearColor =
      ⟨w.Center, w.Width, if w.LowCutoff then 1 else 0,
        if w.HighCutoff then 1 else 0⟩) ∧
    ({} : FWindowingParameters).ToLinearColor = ⟨1/2, 1, 1, 1⟩ := by
  exact ⟨fun w => rfl, rfl⟩

/-- Claim C10: a default-constructed FVolumeInfo leaves bIsSigned and
BytesPerVoxel indeterminate (none): in particular they do not mirror the
default ActualFormat UnsignedChar, which would give bIsSigned = some
false and BytesPerVoxel = some 1; every other field has the defined
default of the source, including bParseWasSuccessful = false and
Dimensions = (0,0,0). -/
theorem claim_C10_default_construction :
    ({} : FVolumeInfo).bIsSigned = none ∧
    ({} : FVolumeInfo).BytesPerVoxel = none ∧
    ({} : FVolumeInfo).bIsSigned ≠
      some (FVolumeInfo.IsVoxelFormatSigned ({} : FVolumeInfo).ActualFormat) ∧
    ({} : FVolumeInfo).BytesPerVoxel ≠ some 1 ∧
    ({} : FVolumeInfo).bParseWasSuccessful = false ∧
    ({} : FVolumeInfo).DataFileName = "" ∧
    ({} : FVolumeInfo).OriginalFormat = .UnsignedChar ∧
    ({} : FVolumeInfo).ActualFormat = .UnsignedChar ∧
    ({} : FVolumeInfo).Dimensions = ⟨0, 0, 0⟩ ∧
    ({} : FVolumeInfo).Spacing = ⟨0, 0, 0⟩ ∧
    ({} : FVolumeInfo).WorldDimensions = ⟨0, 0, 0⟩ ∧
    ({} : FVolumeInfo).DefaultWindowingParameters = {} ∧
    ({} : FVolumeInfo).bIsNormalized = false ∧
    ({} : FVolumeInfo).MinValue = -1000 ∧
    ({} : FVolumeInfo).MaxValue = 3000 ∧
    ({} : FVolumeInfo).bIsCompressed = false ∧
    ({} : FVolumeInfo).CompressedByteSize = 0 := by
  refine ⟨rfl, rfl, ?_, ?_, rfl, rfl, rfl, rfl, rfl, rfl, rfl, rfl, rfl,
    rfl, rfl, rfl, rfl⟩
  · simp
  · simp

end TBRaymarcher
